import Mathlib

/-!
Verification of the ZGC root-scanning and JNI-handle core:
a shallow embedding of `src/hotspot/share/runtime/jniHandles.hpp` and
`src/hotspot/share/gc/z/zRootsIterator.cpp`, with theorems settling the
specification claims about handle tagging, the resolve protocol, the
serial/parallel claim guards, and the root-iterator dispatch lists.
-/

/-! ## JNI handle model

An `oop` (managed reference) is modelled as a `Nat`, with `0` playing the
role of the C++ `NULL` oop.  A handle (`jobject`) is an address, also a
`Nat`, with `0` playing the role of the `NULL` handle.  The slot memory is
a total map from slot addresses to oop values.  Assertion failures
(contract violations) are modelled as `Except.error`; normal returns as
`Except.ok`. -/

abbrev Oop := Nat

abbrev Mem := Nat → Oop

/-- Source constant `JNIHandles::weak_tag_size = 1`. -/
def JNIHandles.weak_tag_size : Nat := 1

/-- Source constant `JNIHandles::weak_tag_alignment = (1u << weak_tag_size)`. -/
def JNIHandles.weak_tag_alignment : Nat := 2 ^ JNIHandles.weak_tag_size

/-- Source constant `JNIHandles::weak_tag_mask = weak_tag_alignment - 1`. -/
def JNIHandles.weak_tag_mask : Nat := JNIHandles.weak_tag_alignment - 1

/-- Source constant `JNIHandles::weak_tag_value = 1`. -/
def JNIHandles.weak_tag_value : Nat := 1

/-- `JNIHandles::is_jweak(handle)`:
`(reinterpret_cast<uintptr_t>(handle) & weak_tag_mask) != 0`. -/
def JNIHandles.is_jweak (handle : Nat) : Bool :=
  (handle &&& JNIHandles.weak_tag_mask) != 0

/-- `JNIHandles::jobject_ref(handle)`: asserts `!is_jweak(handle)` and
dereferences the handle address directly (`*reinterpret_cast<oop*>(handle)`).
Modelled as the read form of the returned `oop&`. -/
def JNIHandles.jobject_ref (m : Mem) (handle : Nat) : Except String Oop :=
  if JNIHandles.is_jweak handle then .error "assert failed: precondition"
  else .ok (m handle)

/-- `JNIHandles::jweak_ref_addr(handle)`: asserts `is_jweak(handle)` and
returns `handle - weak_tag_value` as the slot address. -/
def JNIHandles.jweak_ref_addr (handle : Nat) : Except String Nat :=
  if JNIHandles.is_jweak handle then .ok (handle - JNIHandles.weak_tag_value)
  else .error "assert failed: precondition"

/-- `JNIHandles::jweak_ref(handle)`: the read form of `*jweak_ref_addr(handle)`. -/
def JNIHandles.jweak_ref (m : Mem) (handle : Nat) : Except String Oop :=
  match JNIHandles.jweak_ref_addr handle with
  | .ok addr => .ok (m addr)
  | .error e => .error e

/-- Modelled from the spec: `JNIHandles::resolve_jweak` is declared in
`jniHandles.hpp` but defined in `jniHandles.cpp`, which is not part of this
repository snapshot.  Per the spec, weak-handle resolution reads the weak
slot owned by the weak-global storage and "may itself return null if the
referent was cleared by the collector".  Modelled as asserting the
preconditions (`handle != NULL`, `is_jweak(handle)`) and reading the slot
at the decoded weak address. -/
def JNIHandles.resolve_jweak (m : Mem) (handle : Nat) : Except String Oop :=
  if handle = 0 then .error "assert failed: precondition"
  else JNIHandles.jweak_ref m handle

/-- `JNIHandles::resolve_impl<external_guard>(handle)`: asserts
`handle != NULL`; weak handles delegate to `resolve_jweak`; strong handles
read the slot through `jobject_ref` and assert
`external_guard || result != NULL`.  (The thread-state assertion
`!current_thread_in_native()` concerns thread state outside this model.) -/
def JNIHandles.resolve_impl (external_guard : Bool) (m : Mem) (handle : Nat) :
    Except String Oop :=
  if handle = 0 then .error "assert failed: precondition"
  else if JNIHandles.is_jweak handle then
    JNIHandles.resolve_jweak m handle
  else
    match JNIHandles.jobject_ref m handle with
    | .error e => .error e
    | .ok result =>
      if external_guard = false ∧ result = 0 then
        .error "assert failed: Invalid JNI handle"
      else .ok result

/-- `JNIHandles::resolve(handle)`: returns the `NULL` oop for a `NULL`
handle, otherwise `resolve_impl<false>`. -/
def JNIHandles.resolve (m : Mem) (handle : Nat) : Except String Oop :=
  if handle ≠ 0 then JNIHandles.resolve_impl false m handle else .ok 0

/-- `JNIHandles::resolve_external_guard(handle)`: returns the `NULL` oop
for a `NULL` handle, otherwise `resolve_impl<true>`. -/
def JNIHandles.resolve_external_guard (m : Mem) (handle : Nat) : Except String Oop :=
  if handle ≠ 0 then JNIHandles.resolve_impl true m handle else .ok 0

/-- `JNIHandles::resolve_non_null(handle)`: asserts `handle != NULL`, then
`resolve_impl<false>`, then asserts the result is non-null. -/
def JNIHandles.resolve_non_null (m : Mem) (handle : Nat) : Except String Oop :=
  if handle = 0 then .error "assert failed: JNI handle should not be null"
  else
    match JNIHandles.resolve_impl false m handle with
    | .error e => .error e
    | .ok result =>
      if result = 0 then .error "assert failed: NULL read from jni handle"
      else .ok result

/-- `JNIHandles::destroy_local(handle)`: a `NULL` handle is ignored;
otherwise asserts `!is_jweak(handle)` and stores `NULL` through
`jobject_ref(handle)`.  Returns the updated memory. -/
def JNIHandles.destroy_local (m : Mem) (handle : Nat) : Except String Mem :=
  if handle ≠ 0 then
    if JNIHandles.is_jweak handle then .error "assert failed: Invalid JNI local handle"
    else .ok (Function.update m handle 0)
  else .ok m

/-! ## Claim-once guard wrappers

`ZSerialOopsDo` / `ZSerialUnlinkOrOopsDo` guard a traversal function that
is not safe for concurrent entry: each caller reads `_claimed` and, if it
read `false`, performs `Atomic::cmpxchg(true, &_claimed, false)`; only the
caller that observes the old value `false` runs the function.  Both
wrappers have the identical claim structure (they differ only in the
argument list forwarded to the guarded member function), so one protocol
model covers both.  The protocol is modelled as a small-step transition
system over an interleaving of `T` symmetric threads, each executing the
body of `oops_do` / `unlink_or_oops_do` once. -/

/-- Program counter of one thread executing the body of
`ZSerialOopsDo::oops_do` (line by line: read `_claimed`, short-circuit,
`Atomic::cmpxchg`, then possibly run `(_iter->*F)(cl)`). -/
inductive SerialPC where
  | start : SerialPC
  | readDone : Bool → SerialPC
  | casDone : Bool → SerialPC
  | finished : SerialPC
  deriving DecidableEq, Repr

/-- Global state of a `ZSerialOopsDo` instance shared by a multiset of
threads: the `_claimed` flag, the number of completed executions of the
guarded traversal function, and each thread's program counter. -/
structure SerialSys where
  claimed : Bool
  execs : Nat
  threads : Multiset SerialPC
  deriving DecidableEq

/-- One interleaving step of the `ZSerialOopsDo::oops_do` protocol:
  * `read`: a thread evaluates `!_claimed`, recording the value it saw;
  * `skipT`: a thread that read `_claimed == true` short-circuits the `&&`
    and returns without touching anything;
  * `cas`: a thread that read `false` performs
    `Atomic::cmpxchg(true, &_claimed, false)` — the flag becomes `true`
    unconditionally and the thread records whether the old value was
    `false` (the compare-and-swap succeeded);
  * `exec`: a thread whose compare-and-swap succeeded runs the guarded
    traversal function `(_iter->*F)(cl)`;
  * `skipF`: a thread whose compare-and-swap failed returns. -/
inductive SerialStep : SerialSys → SerialSys → Prop where
  | read (s : SerialSys) (h : SerialPC.start ∈ s.threads) :
      SerialStep s ⟨s.claimed, s.execs,
        SerialPC.readDone s.claimed ::ₘ s.threads.erase SerialPC.start⟩
  | skipT (s : SerialSys) (h : SerialPC.readDone true ∈ s.threads) :
      SerialStep s ⟨s.claimed, s.execs,
        SerialPC.finished ::ₘ s.threads.erase (SerialPC.readDone true)⟩
  | cas (s : SerialSys) (h : SerialPC.readDone false ∈ s.threads) :
      SerialStep s ⟨true, s.execs,
        SerialPC.casDone (!s.claimed) ::ₘ s.threads.erase (SerialPC.readDone false)⟩
  | exec (s : SerialSys) (h : SerialPC.casDone true ∈ s.threads) :
      SerialStep s ⟨s.claimed, s.execs + 1,
        SerialPC.finished ::ₘ s.threads.erase (SerialPC.casDone true)⟩
  | skipF (s : SerialSys) (h : SerialPC.casDone false ∈ s.threads) :
      SerialStep s ⟨s.claimed, s.execs,
        SerialPC.finished ::ₘ s.threads.erase (SerialPC.casDone false)⟩

/-- Initial state of one `ZSerialOopsDo` guard instance (constructor sets
`_claimed(false)`) with `T` threads about to call the guard entry point. -/
def SerialSys.init (T : Nat) : SerialSys :=
  ⟨false, 0, Multiset.replicate T SerialPC.start⟩

/-- All `T` concurrent calls of the guard entry point have returned. -/
def SerialSys.allFinished (s : SerialSys) : Prop :=
  ∀ pc ∈ s.threads, pc = SerialPC.finished

instance (s : SerialSys) : Decidable s.allFinished :=
  Multiset.decidableForallMultiset

/-! ## Parallel guard wrappers

`ZParallelOopsDo::oops_do` / `ZParallelUnlinkOrOopsDo::unlink_or_oops_do`:
a caller that observes `_completed == false` runs the guarded traversal
function and then (re-checking the flag) sets `_completed = true`; a
caller that observes `_completed == true` returns without running it.
Both wrappers have the identical structure; one model covers both.  The
model below is the guard as seen by one caller running the body to
completion without interference. -/

/-- State of one `ZParallelOopsDo` instance: the `_completed` flag and the
number of completed executions of the guarded traversal function. -/
structure ParallelGuard where
  completed : Bool
  execs : Nat
  deriving DecidableEq, Repr

/-- Body of `ZParallelOopsDo::oops_do` (and, identically, of
`ZParallelUnlinkOrOopsDo::unlink_or_oops_do`) executed by a single caller:
`if (!_completed) { (_iter->*F)(cl); if (!_completed) { _completed = true; } }`. -/
def ZParallelOopsDo.oops_do (g : ParallelGuard) : ParallelGuard :=
  if !g.completed then
    let g1 : ParallelGuard := ⟨g.completed, g.execs + 1⟩
    if !g1.completed then ⟨true, g1.execs⟩ else g1
  else g

/-- Fresh `ZParallelOopsDo` guard instance (constructor sets
`_completed(false)`). -/
def ParallelGuard.init : ParallelGuard := ⟨false, 0⟩

/-! ## Root-iterator dispatch model

`ZRootsIterator::oops_do` and `ZWeakRootsIterator::unlink_or_oops_do`
dispatch, in program order, to a fixed list of root-group guards; each
group's underlying `do_*` member function then invokes one external
collaborator entry point, forwarding (or not) the supplied reference
visitor (`OopClosure* cl`) and liveness predicate
(`BoolObjectClosure* is_alive`).  The model records this dispatch sequence
as a list of collaborator calls, each tagged with the root group and the
liveness predicate / visitor actually forwarded to the collaborator
(`none` when the collaborator entry point does not receive it).
Statistics timers (`ZStatTimer`) are instrumentation and are not
modelled.  The configuration switches `ZWeakRoots` and
`ZConcurrentJNIWeakGlobalHandles` are passed as explicit parameters. -/

/-- A reference visitor (`OopClosure`): rewrites one oop value. -/
abbrev OopClosure := Oop → Oop

/-- A liveness predicate (`BoolObjectClosure`). -/
abbrev BoolObjectClosure := Oop → Bool

/-- Modelled from the spec: `AlwaysTrueClosure` lives in shared GC code
(`gc/shared`), outside this repository snapshot; the spec calls it the
always-true liveness predicate used to treat every entry as live. -/
def AlwaysTrueClosure : BoolObjectClosure := fun _ => true

/-- The named root groups dispatched by the iterator family. -/
inductive RootGroup where
  | universe : RootGroup
  | jniHandles : RootGroup
  | jniWeakHandles : RootGroup
  | objectSynchronizer : RootGroup
  | management : RootGroup
  | jvmtiExport : RootGroup
  | jvmtiWeakExport : RootGroup
  | trace : RootGroup
  | systemDictionary : RootGroup
  | classLoaderDataGraph : RootGroup
  | threads : RootGroup
  | codeCache : RootGroup
  | symbolTable : RootGroup
  | stringTable : RootGroup
  deriving DecidableEq, Repr

/-- One call into an external collaborator's traversal entry point, as
issued by a root group's `do_*` member function: the root group, the
liveness predicate passed to the collaborator (`none` when the
collaborator entry point takes none), and the reference visitor passed to
the collaborator (`none` when it takes none). -/
structure ExtCall where
  group : RootGroup
  is_alive : Option BoolObjectClosure
  cl : Option OopClosure

/-- `ZRootsIterator::do_universe`: `Universe::oops_do(cl)`. -/
def ZRootsIterator.do_universe (cl : OopClosure) : List ExtCall :=
  [⟨RootGroup.universe, none, some cl⟩]

/-- `ZRootsIterator::do_jni_handles`: `JNIHandles::oops_do(cl)`. -/
def ZRootsIterator.do_jni_handles (cl : OopClosure) : List ExtCall :=
  [⟨RootGroup.jniHandles, none, some cl⟩]

/-- `ZRootsIterator::do_jni_weak_handles`: `JNIHandles::weak_oops_do(cl)`. -/
def ZRootsIterator.do_jni_weak_handles (cl : OopClosure) : List ExtCall :=
  [⟨RootGroup.jniWeakHandles, none, some cl⟩]

/-- `ZRootsIterator::do_object_synchronizer`: `ObjectSynchronizer::oops_do(cl)`. -/
def ZRootsIterator.do_object_synchronizer (cl : OopClosure) : List ExtCall :=
  [⟨RootGroup.objectSynchronizer, none, some cl⟩]

/-- `ZRootsIterator::do_management`: `Management::oops_do(cl)`. -/
def ZRootsIterator.do_management (cl : OopClosure) : List ExtCall :=
  [⟨RootGroup.management, none, some cl⟩]

/-- `ZRootsIterator::do_jvmti_export`: `JvmtiExport::oops_do(cl)`. -/
def ZRootsIterator.do_jvmti_export (cl : OopClosure) : List ExtCall :=
  [⟨RootGroup.jvmtiExport, none, some cl⟩]

/-- `ZRootsIterator::do_jvmti_weak_export`: constructs an
`AlwaysTrueClosure always_alive` and calls
`JvmtiExport::weak_oops_do(&always_alive, cl)`. -/
def ZRootsIterator.do_jvmti_weak_export (cl : OopClosure) : List ExtCall :=
  [⟨RootGroup.jvmtiWeakExport, some AlwaysTrueClosure, some cl⟩]

/-- `ZRootsIterator::do_trace`: constructs an `AlwaysTrueClosure` and calls
`TRACE_WEAK_OOPS_DO(&always_alive, cl)`. -/
def ZRootsIterator.do_trace (cl : OopClosure) : List ExtCall :=
  [⟨RootGroup.trace, some AlwaysTrueClosure, some cl⟩]

/-- `ZRootsIterator::do_system_dictionary`: `SystemDictionary::oops_do(cl)`. -/
def ZRootsIterator.do_system_dictionary (cl : OopClosure) : List ExtCall :=
  [⟨RootGroup.systemDictionary, none, some cl⟩]

/-- `ZRootsIterator::do_class_loader_data_graph`: wraps `cl` in a
`CLDToOopClosure` and calls `ClassLoaderDataGraph::cld_do(&cld_cl)`; the
supplied visitor is forwarded (wrapped). -/
def ZRootsIterator.do_class_loader_data_graph (cl : OopClosure) : List ExtCall :=
  [⟨RootGroup.classLoaderDataGraph, none, some cl⟩]

/-- `ZRootsIterator::do_threads`:
`Threads::possibly_parallel_oops_do(true, cl, NULL)`. -/
def ZRootsIterator.do_threads (cl : OopClosure) : List ExtCall :=
  [⟨RootGroup.threads, none, some cl⟩]

/-- `ZRootsIterator::do_code_cache`: `ZNMethodTable::oops_do(cl)`. -/
def ZRootsIterator.do_code_cache (cl : OopClosure) : List ExtCall :=
  [⟨RootGroup.codeCache, none, some cl⟩]

/-- `ZRootsIterator::do_string_table`:
`StringTable::possibly_parallel_oops_do(cl)`. -/
def ZRootsIterator.do_string_table (cl : OopClosure) : List ExtCall :=
  [⟨RootGroup.stringTable, none, some cl⟩]

/-- `ZRootsIterator::oops_do(cl, visit_jvmti_weak_export)`: dispatches, in
program order, to the guards of universe, JNI handles, object
synchronizer, management, JVMTI export, system dictionary, class-loader-
data graph, threads and code cache; then, if `!ZWeakRoots`, to JNI weak
handles, JVMTI weak export, trace and string table; otherwise, if
`visit_jvmti_weak_export`, to JVMTI weak export only. -/
def ZRootsIterator.oops_do (zWeakRoots : Bool) (cl : OopClosure)
    (visit_jvmti_weak_export : Bool) : List ExtCall :=
  ZRootsIterator.do_universe cl ++
  ZRootsIterator.do_jni_handles cl ++
  ZRootsIterator.do_object_synchronizer cl ++
  ZRootsIterator.do_management cl ++
  ZRootsIterator.do_jvmti_export cl ++
  ZRootsIterator.do_system_dictionary cl ++
  ZRootsIterator.do_class_loader_data_graph cl ++
  ZRootsIterator.do_threads cl ++
  ZRootsIterator.do_code_cache cl ++
  (if !zWeakRoots then
    ZRootsIterator.do_jni_weak_handles cl ++
    ZRootsIterator.do_jvmti_weak_export cl ++
    ZRootsIterator.do_trace cl ++
    ZRootsIterator.do_string_table cl
  else
    if visit_jvmti_weak_export then ZRootsIterator.do_jvmti_weak_export cl
    else [])

/-- `ZWeakRootsIterator::do_jni_weak_handles`:
`JNIHandles::weak_oops_do(is_alive, cl)` — both supplied arguments are
forwarded to the collaborator. -/
def ZWeakRootsIterator.do_jni_weak_handles (is_alive : BoolObjectClosure)
    (cl : OopClosure) : List ExtCall :=
  [⟨RootGroup.jniWeakHandles, some is_alive, some cl⟩]

/-- `ZWeakRootsIterator::do_jvmti_weak_export`:
`JvmtiExport::weak_oops_do(is_alive, cl)`. -/
def ZWeakRootsIterator.do_jvmti_weak_export (is_alive : BoolObjectClosure)
    (cl : OopClosure) : List ExtCall :=
  [⟨RootGroup.jvmtiWeakExport, some is_alive, some cl⟩]

/-- `ZWeakRootsIterator::do_trace`: `TRACE_WEAK_OOPS_DO(is_alive, cl)`. -/
def ZWeakRootsIterator.do_trace (is_alive : BoolObjectClosure)
    (cl : OopClosure) : List ExtCall :=
  [⟨RootGroup.trace, some is_alive, some cl⟩]

/-- `ZWeakRootsIterator::do_symbol_table`: declares `int dummy` and calls
`SymbolTable::possibly_parallel_unlink(&dummy, &dummy)` — the supplied
`is_alive` and `cl` are discarded; the collaborator receives neither the
liveness predicate nor the visitor (symbol-table liveness is internal to
the symbol table). -/
def ZWeakRootsIterator.do_symbol_table (is_alive : BoolObjectClosure)
    (cl : OopClosure) : List ExtCall :=
  [⟨RootGroup.symbolTable, none, none⟩]

/-- `ZWeakRootsIterator::do_string_table`: declares `int dummy` and calls
`StringTable::possibly_parallel_unlink_or_oops_do(is_alive, cl, &dummy,
&dummy)` — both supplied arguments are forwarded. -/
def ZWeakRootsIterator.do_string_table (is_alive : BoolObjectClosure)
    (cl : OopClosure) : List ExtCall :=
  [⟨RootGroup.stringTable, some is_alive, some cl⟩]

/-- `ZWeakRootsIterator::unlink_or_oops_do(is_alive, cl)`: dispatches to
the symbol-table guard unconditionally; then, if `ZWeakRoots`: to JNI weak
handles unless `ZConcurrentJNIWeakGlobalHandles`, then to JVMTI weak
export, trace and string table. -/
def ZWeakRootsIterator.unlink_or_oops_do (zWeakRoots : Bool)
    (zConcurrentJNIWeakGlobalHandles : Bool) (is_alive : BoolObjectClosure)
    (cl : OopClosure) : List ExtCall :=
  ZWeakRootsIterator.do_symbol_table is_alive cl ++
  (if zWeakRoots then
    (if !zConcurrentJNIWeakGlobalHandles then
      ZWeakRootsIterator.do_jni_weak_handles is_alive cl
    else []) ++
    ZWeakRootsIterator.do_jvmti_weak_export is_alive cl ++
    ZWeakRootsIterator.do_trace is_alive cl ++
    ZWeakRootsIterator.do_string_table is_alive cl
  else [])

/-- `ZWeakRootsIterator::oops_do(cl)`: constructs an
`AlwaysTrueClosure always_alive` and calls
`unlink_or_oops_do(&always_alive, cl)`. -/
def ZWeakRootsIterator.oops_do (zWeakRoots : Bool)
    (zConcurrentJNIWeakGlobalHandles : Bool) (cl : OopClosure) : List ExtCall :=
  ZWeakRootsIterator.unlink_or_oops_do zWeakRoots zConcurrentJNIWeakGlobalHandles
    AlwaysTrueClosure cl

/-- Follows the spec's words (for the refinement claim): the visit-only
mode of the weak-root iterator, defined as the unlink-or-visit mode
instantiated with an always-true liveness predicate and the same
visitor. -/
def ZWeakRootsIterator.oops_do_spec (zWeakRoots : Bool)
    (zConcurrentJNIWeakGlobalHandles : Bool) (cl : OopClosure) : List ExtCall :=
  ZWeakRootsIterator.unlink_or_oops_do zWeakRoots zConcurrentJNIWeakGlobalHandles
    (fun _ => true) cl

/-! ## Theorems settling the claims -/

/-- C3: for every handle value, `resolve_external_guard` never faults and
returns the null reference when the handle is null, when it is a strong
handle whose slot now holds null (e.g. a previously destroyed handle), or
when it is a weak handle whose referent was cleared; none of these is
treated as a contract violation. -/
theorem resolve_external_guard_defensive_null (m : Mem) (h : Nat) :
    (h = 0 → JNIHandles.resolve_external_guard m h = .ok 0) ∧
    (h ≠ 0 → JNIHandles.is_jweak h = false → m h = 0 →
      JNIHandles.resolve_external_guard m h = .ok 0) ∧
    (h ≠ 0 → JNIHandles.is_jweak h = true →
      m (h - JNIHandles.weak_tag_value) = 0 →
      JNIHandles.resolve_external_guard m h = .ok 0) := by
  refine ⟨fun h0 => by simp [JNIHandles.resolve_external_guard, h0], ?_, ?_⟩
  · intro h0 hw hnull
    simp [JNIHandles.resolve_external_guard, JNIHandles.resolve_impl,
      JNIHandles.jobject_ref, h0, hw, hnull]
  · intro h0 hw hcleared
    simp [JNIHandles.resolve_external_guard, JNIHandles.resolve_impl,
      JNIHandles.resolve_jweak, JNIHandles.jweak_ref, JNIHandles.jweak_ref_addr,
      h0, hw, hcleared]

/-- Witness for C3: the three cases at concrete inputs — null handle `0`,
strong handle `2` over an all-null memory, weak handle `3` (tag bit set)
over an all-null memory. -/
theorem resolve_external_guard_defensive_null_witness :
    ((0 : Nat) = 0 ∧ JNIHandles.resolve_external_guard (fun _ => 0) 0 = .ok 0) ∧
    ((2 : Nat) ≠ 0 ∧ JNIHandles.is_jweak 2 = false ∧
      JNIHandles.resolve_external_guard (fun _ => 0) 2 = .ok 0) ∧
    ((3 : Nat) ≠ 0 ∧ JNIHandles.is_jweak 3 = true ∧
      JNIHandles.resolve_external_guard (fun _ => 0) 3 = .ok 0) :=
  ⟨⟨rfl, (resolve_external_guard_defensive_null (fun _ => 0) 0).1 rfl⟩,
   ⟨by decide, by decide,
    (resolve_external_guard_defensive_null (fun _ => 0) 2).2.1 (by decide) (by decide) rfl⟩,
   ⟨by decide, by decide,
    (resolve_external_guard_defensive_null (fun _ => 0) 3).2.2 (by decide) (by decide) rfl⟩⟩

/-- C4: `resolve` returns the null reference for a null handle; for a weak
handle it delegates to weak-handle resolution, which returns the weak
slot's current content (null if the referent was cleared); for a strong
handle it returns the slot's content, and on the non-external-guard path a
null slot content is a contract violation (assertion failure). -/
theorem resolve_dispatch (m : Mem) (h : Nat) :
    (h = 0 → JNIHandles.resolve m h = .ok 0) ∧
    (h ≠ 0 → JNIHandles.is_jweak h = true →
      JNIHandles.resolve m h = JNIHandles.resolve_jweak m h ∧
      JNIHandles.resolve_jweak m h = .ok (m (h - JNIHandles.weak_tag_value))) ∧
    (h ≠ 0 → JNIHandles.is_jweak h = false → m h ≠ 0 →
      JNIHandles.resolve m h = .ok (m h)) ∧
    (h ≠ 0 → JNIHandles.is_jweak h = false → m h = 0 →
      JNIHandles.resolve m h = .error "assert failed: Invalid JNI handle") := by
  refine ⟨fun h0 => by simp [JNIHandles.resolve, h0], ?_, ?_, ?_⟩
  · intro h0 hw
    constructor
    · simp [JNIHandles.resolve, JNIHandles.resolve_impl, h0, hw]
    · simp [JNIHandles.resolve_jweak, JNIHandles.jweak_ref,
        JNIHandles.jweak_ref_addr, h0, hw]
  · intro h0 hw hnn
    simp [JNIHandles.resolve, JNIHandles.resolve_impl, JNIHandles.jobject_ref,
      h0, hw, hnn]
  · intro h0 hw hnull
    simp [JNIHandles.resolve, JNIHandles.resolve_impl, JNIHandles.jobject_ref,
      h0, hw, hnull]

/-- Witness for C4: the four cases at concrete inputs — handle `0`; weak
handle `3` over a memory whose slot `2` holds `7`; strong handle `2` over
that memory; strong handle `4` over that memory (slot `4` holds `0`). -/
theorem resolve_dispatch_witness :
    ((0 : Nat) = 0 ∧ JNIHandles.resolve (fun a => if a = 2 then 7 else 0) 0 = .ok 0) ∧
    ((3 : Nat) ≠ 0 ∧ JNIHandles.is_jweak 3 = true ∧
      JNIHandles.resolve (fun a => if a = 2 then 7 else 0) 3 =
        JNIHandles.resolve_jweak (fun a => if a = 2 then 7 else 0) 3 ∧
      JNIHandles.resolve_jweak (fun a => if a = 2 then 7 else 0) 3 = .ok 7) ∧
    ((2 : Nat) ≠ 0 ∧ JNIHandles.is_jweak 2 = false ∧
      JNIHandles.resolve (fun a => if a = 2 then 7 else 0) 2 = .ok 7) ∧
    ((4 : Nat) ≠ 0 ∧ JNIHandles.is_jweak 4 = false ∧
      JNIHandles.resolve (fun a => if a = 2 then 7 else 0) 4 =
        .error "assert failed: Invalid JNI handle") := by
  refine ⟨⟨rfl, (resolve_dispatch _ 0).1 rfl⟩, ⟨by decide, by decide, ?_, ?_⟩,
    ⟨by decide, by decide, ?_⟩, ⟨by decide, by decide, ?_⟩⟩
  · exact ((resolve_dispatch _ 3).2.1 (by decide) (by decide)).1
  · exact ((resolve_dispatch _ 3).2.1 (by decide) (by decide)).2
  · exact (resolve_dispatch _ 2).2.2.1 (by decide) (by decide) (by decide)
  · exact (resolve_dispatch _ 4).2.2.2 (by decide) (by decide) rfl

/-- C5: the weak tag occupies one reserved low bit (`weak_tag_mask = 1`,
`weak_tag_value = 1`); a handle is weak exactly when its address ANDed
with the tag mask is non-zero; the decoded slot address of a strong handle
is the handle address itself, and of a weak handle is the address minus
the tag value — pure address arithmetic. -/
theorem weak_tag_encoding (a : Nat) :
    JNIHandles.weak_tag_mask = 1 ∧
    JNIHandles.weak_tag_value = 1 ∧
    (JNIHandles.is_jweak a = true ↔ a &&& JNIHandles.weak_tag_mask ≠ 0) ∧
    (JNIHandles.is_jweak a = false →
      ∀ m : Mem, JNIHandles.jobject_ref m a = .ok (m a)) ∧
    (JNIHandles.is_jweak a = true →
      JNIHandles.jweak_ref_addr a = .ok (a - JNIHandles.weak_tag_value)) := by
  refine ⟨rfl, rfl, ?_, ?_, ?_⟩
  · simp [JNIHandles.is_jweak]
  · intro hw m; simp [JNIHandles.jobject_ref, hw]
  · intro hw; simp [JNIHandles.jweak_ref_addr, hw]

/-- Witness for C5: the strong branch at address `2`, the weak branch at
address `3`. -/
theorem weak_tag_encoding_witness :
    (JNIHandles.is_jweak 2 = false ∧
      JNIHandles.jobject_ref (fun _ => 0) 2 = .ok 0) ∧
    (JNIHandles.is_jweak 3 = true ∧
      JNIHandles.jweak_ref_addr 3 = .ok (3 - JNIHandles.weak_tag_value)) ∧
    (JNIHandles.is_jweak 3 = true ↔ 3 &&& JNIHandles.weak_tag_mask ≠ 0) :=
  ⟨⟨by decide, (weak_tag_encoding 2).2.2.2.1 (by decide) (fun _ => 0)⟩,
   ⟨by decide, (weak_tag_encoding 3).2.2.2.2 (by decide)⟩,
   (weak_tag_encoding 3).2.2.1⟩

/-- Counterexample to C9 as stated: destroying a local handle twice is a
silent success, not an assertion failure.  Start from a memory whose slot
`2` holds the live oop `7`; `destroy_local` at handle `2` succeeds, and a
second `destroy_local` of the same handle again returns normally (it
rewrites the already-null slot), whereas the claim says the second destroy
is signalled as a contract violation. -/
theorem destroy_local_twice_silent :
    (JNIHandles.destroy_local (fun a => if a = 2 then 7 else 0) 2).bind
      (fun m1 => JNIHandles.destroy_local m1 2) =
    .ok (Function.update
      (Function.update (fun a => if a = 2 then 7 else 0) 2 0) 2 0) := rfl

/-- C9 amended: resolving a destroyed local handle (a non-null strong
handle whose slot now holds null) via the non-external-guard `resolve`
path is signalled as a contract violation (assertion failure), not a
silent success; destroying such a handle again, however, is not detected —
the second `destroy_local` returns normally, rewriting the null slot. -/
theorem resolve_after_destroy_asserts (m : Mem) (h : Nat)
    (h0 : h ≠ 0) (hw : JNIHandles.is_jweak h = false) (hnull : m h = 0) :
    JNIHandles.resolve m h = .error "assert failed: Invalid JNI handle" ∧
    JNIHandles.destroy_local m h = .ok (Function.update m h 0) := by
  constructor
  · simp [JNIHandles.resolve, JNIHandles.resolve_impl, JNIHandles.jobject_ref,
      h0, hw, hnull]
  · simp [JNIHandles.destroy_local, h0, hw]

/-- Witness for the amended C9: handle `2` over the all-null memory (slot
`2` was destroyed). -/
theorem resolve_after_destroy_asserts_witness :
    ((2 : Nat) ≠ 0 ∧ JNIHandles.is_jweak 2 = false ∧
      (fun _ => (0 : Oop)) 2 = 0) ∧
    (JNIHandles.resolve (fun _ => 0) 2 = .error "assert failed: Invalid JNI handle" ∧
      JNIHandles.destroy_local (fun _ => 0) 2 =
        .ok (Function.update (fun _ => 0) 2 0)) :=
  ⟨⟨by decide, by decide, rfl⟩,
   resolve_after_destroy_asserts (fun _ => 0) 2 (by decide) (by decide) rfl⟩

/-- Counterexample to C2 as stated: the `completed` flag of
`ZParallelOopsDo` does gate execution.  Calling `oops_do` twice in
sequence on a fresh guard executes the underlying traversal function once,
not twice: the second call observes `_completed == true` and skips. -/
theorem parallel_guard_second_call_skips :
    (ZParallelOopsDo.oops_do (ZParallelOopsDo.oops_do ParallelGuard.init)).execs = 1 ∧
    (ZParallelOopsDo.oops_do (ZParallelOopsDo.oops_do ParallelGuard.init)).execs ≠ 2 := by
  decide

/-- C2 amended: a call of `ZParallelOopsDo::oops_do` that observes
`completed = false` executes the underlying traversal function and then
sets `completed` (recording that at least one invocation has occurred); a
call that observes `completed = true` is skipped without executing the
function.  The flag is thus a best-effort skip of late calls, not a
mutual-exclusion gate: it is read without atomics, so concurrent callers
that all observe `false` all execute the (parallel-safe) function. -/
theorem parallel_guard_behaviour (g : ParallelGuard) :
    ZParallelOopsDo.oops_do g =
      if g.completed then g else ⟨true, g.execs + 1⟩ := by
  cases g with
  | mk completed execs => cases completed <;> simp [ZParallelOopsDo.oops_do]

/-- Counterexample to C6 as stated: with the weak-roots-as-separate-phase
switch on (`ZWeakRoots = true`) and `visit_jvmti_weak_export = true`, the
strong-root iterator's entry point still dispatches to the weak JVMTI
export guard, although the claim allows the weak categories to be
dispatched only when the switch is off. -/
theorem roots_iterator_dispatch_weak_export_cex :
    ((ZRootsIterator.oops_do true (fun x => x) true).map
      ExtCall.group).count RootGroup.jvmtiWeakExport = 1 := by decide

set_option maxHeartbeats 1600000 in
/-- C6 amended: every invocation of `ZRootsIterator::oops_do` dispatches
exactly once to each of the nine strong groups (universe statics, global
JNI handles, object synchronizer, management, JVMTI export, system
dictionary, class-loader-data graph, thread stacks, code cache); it
dispatches to weak JNI handles, trace roots and the string table if and
only if the weak-roots-as-separate-phase switch is off; and it dispatches
to the weak JVMTI export group if and only if the switch is off or the
`visit_jvmti_weak_export` argument is true.  The symbol table is never
dispatched from the strong pass. -/
theorem roots_iterator_dispatch (zWeakRoots visit_jvmti_weak_export : Bool)
    (cl : OopClosure) :
    let gs := (ZRootsIterator.oops_do zWeakRoots cl visit_jvmti_weak_export).map
      ExtCall.group
    gs.count RootGroup.universe = 1 ∧
    gs.count RootGroup.jniHandles = 1 ∧
    gs.count RootGroup.objectSynchronizer = 1 ∧
    gs.count RootGroup.management = 1 ∧
    gs.count RootGroup.jvmtiExport = 1 ∧
    gs.count RootGroup.systemDictionary = 1 ∧
    gs.count RootGroup.classLoaderDataGraph = 1 ∧
    gs.count RootGroup.threads = 1 ∧
    gs.count RootGroup.codeCache = 1 ∧
    gs.count RootGroup.jniWeakHandles = (if zWeakRoots then 0 else 1) ∧
    gs.count RootGroup.trace = (if zWeakRoots then 0 else 1) ∧
    gs.count RootGroup.stringTable = (if zWeakRoots then 0 else 1) ∧
    gs.count RootGroup.jvmtiWeakExport =
      (if zWeakRoots = false ∨ visit_jvmti_weak_export = true then 1 else 0) ∧
    gs.count RootGroup.symbolTable = 0 := by
  cases zWeakRoots <;> cases visit_jvmti_weak_export <;>
    exact ⟨rfl, rfl, rfl, rfl, rfl, rfl, rfl, rfl, rfl, rfl, rfl, rfl, rfl, rfl⟩

/-- Counterexample to C7 as stated: the weak-root iterator does visit the
symbol table, but not with the supplied liveness predicate — the
symbol-table collaborator call carries no liveness predicate and no
visitor (the source passes `&dummy` claim counters instead), so it cannot
carry the supplied one. -/
theorem weak_roots_symbol_table_no_predicate_cex :
    (ZWeakRootsIterator.unlink_or_oops_do true false (fun _ => false)
      (fun x => x)).head? = some ⟨RootGroup.symbolTable, none, none⟩ ∧
    (none : Option BoolObjectClosure) ≠ some (fun _ => false) := by
  constructor
  · rfl
  · intro hcontra; cases hcontra

/-- C7 amended: every invocation of
`ZWeakRootsIterator::unlink_or_oops_do` visits the symbol table
unconditionally, but the symbol-table traversal receives neither the
supplied liveness predicate nor the visitor (symbol-table liveness is
internal); gated by the weak-roots-as-separate-phase switch, it also
visits weak JNI handles (unless the concurrent-weak-JNI-handles switch
diverts them to the dedicated concurrent pass), weak JVMTI export, trace
roots and the string table, each with the supplied liveness predicate and
visitor. -/
theorem weak_roots_iterator_dispatch (zWeakRoots zConcurrentJNIWeakGlobalHandles : Bool)
    (is_alive : BoolObjectClosure) (cl : OopClosure) :
    let calls := ZWeakRootsIterator.unlink_or_oops_do zWeakRoots
      zConcurrentJNIWeakGlobalHandles is_alive cl
    calls.filter (fun c => c.group == RootGroup.symbolTable) =
      [⟨RootGroup.symbolTable, none, none⟩] ∧
    calls.filter (fun c => c.group == RootGroup.jniWeakHandles) =
      (if zWeakRoots && !zConcurrentJNIWeakGlobalHandles then
        [⟨RootGroup.jniWeakHandles, some is_alive, some cl⟩] else []) ∧
    calls.filter (fun c => c.group == RootGroup.jvmtiWeakExport) =
      (if zWeakRoots then [⟨RootGroup.jvmtiWeakExport, some is_alive, some cl⟩]
       else []) ∧
    calls.filter (fun c => c.group == RootGroup.trace) =
      (if zWeakRoots then [⟨RootGroup.trace, some is_alive, some cl⟩] else []) ∧
    calls.filter (fun c => c.group == RootGroup.stringTable) =
      (if zWeakRoots then [⟨RootGroup.stringTable, some is_alive, some cl⟩]
       else []) ∧
    calls.filter (fun c => c.group == RootGroup.universe) = [] := by
  cases zWeakRoots <;> cases zConcurrentJNIWeakGlobalHandles <;>
    exact ⟨rfl, rfl, rfl, rfl, rfl, rfl⟩

/-- C8: the weak-root iterator's visit-only entry point
`ZWeakRootsIterator::oops_do` is extensionally equal to its
unlink-or-visit entry point instantiated with an always-true liveness
predicate and the same visitor, for every visitor and every configuration
of the two switches. -/
theorem weak_roots_oops_do_refines_unlink (zWeakRoots zConcurrentJNIWeakGlobalHandles : Bool)
    (cl : OopClosure) :
    ZWeakRootsIterator.oops_do zWeakRoots zConcurrentJNIWeakGlobalHandles cl =
      ZWeakRootsIterator.oops_do_spec zWeakRoots zConcurrentJNIWeakGlobalHandles cl := rfl

/-- C10: with the weak-roots-as-separate-phase switch set
(`ZWeakRoots = true`), `ZRootsIterator::oops_do` dispatches to the weak
JVMTI export group — whose traversal passes an always-true liveness
predicate to the collaborator — exactly when its
`visit_jvmti_weak_export` argument is true, and no other weak category
(weak JNI handles, trace, string table, symbol table) is reachable through
the strong pass in that configuration. -/
theorem roots_iterator_jvmti_weak_export_gating (visit_jvmti_weak_export : Bool)
    (cl : OopClosure) :
    let calls := ZRootsIterator.oops_do true cl visit_jvmti_weak_export
    calls.filter (fun c => c.group == RootGroup.jvmtiWeakExport) =
      (if visit_jvmti_weak_export then
        [⟨RootGroup.jvmtiWeakExport, some AlwaysTrueClosure, some cl⟩] else []) ∧
    AlwaysTrueClosure = (fun _ => true) ∧
    calls.filter (fun c => c.group == RootGroup.jniWeakHandles) = [] ∧
    calls.filter (fun c => c.group == RootGroup.trace) = [] ∧
    calls.filter (fun c => c.group == RootGroup.stringTable) = [] ∧
    calls.filter (fun c => c.group == RootGroup.symbolTable) = [] := by
  cases visit_jvmti_weak_export <;> exact ⟨rfl, rfl, rfl, rfl, rfl, rfl⟩

/-! ## The serial guard executes exactly once (C1) -/

/-- Count bookkeeping for one protocol step: replacing one occurrence of
`b` by `c` in the thread multiset. -/
lemma count_cons_erase {s : Multiset SerialPC} {b : SerialPC} (hb : b ∈ s)
    (c a : SerialPC) :
    (c ::ₘ s.erase b).count a =
      s.count a + (if a = c then 1 else 0) - (if a = b then 1 else 0) := by
  have hpos : 0 < s.count b := Multiset.count_pos.mpr hb
  rw [Multiset.count_cons]
  by_cases hab : a = b
  · subst hab
    rw [Multiset.count_erase_self, if_pos rfl]
    by_cases hac : a = c
    · rw [if_pos hac]; omega
    · rw [if_neg hac]; omega
  · rw [Multiset.count_erase_of_ne hab, if_neg hab, Nat.sub_zero]

/-- Cardinality bookkeeping for one protocol step. -/
lemma card_cons_erase {s : Multiset SerialPC} {b : SerialPC} (hb : b ∈ s)
    (c : SerialPC) :
    Multiset.card (c ::ₘ s.erase b) = Multiset.card s := by
  have hpos : 0 < Multiset.card s := Multiset.card_pos_iff_exists_mem.mpr ⟨b, hb⟩
  rw [Multiset.card_cons, Multiset.card_erase_of_mem hb, Nat.pred_eq_sub_one]
  omega

/-- Winners of the compare-and-swap: executions already performed plus
threads that won the compare-and-swap and have not yet run the guarded
function. -/
def serialWinners (s : SerialSys) : Nat :=
  s.execs + s.threads.count (SerialPC.casDone true)

/-- Inductive invariant of the serial claim protocol: the thread count is
constant; while `_claimed` is still `false` nothing has been executed and
no thread has read `true`, finished, or performed the compare-and-swap;
once `_claimed` is `true` there is exactly one winner. -/
def SerialInv (T : Nat) (s : SerialSys) : Prop :=
  Multiset.card s.threads = T ∧
  (s.claimed = false →
    s.execs = 0 ∧
    s.threads.count (SerialPC.readDone true) = 0 ∧
    s.threads.count (SerialPC.casDone true) = 0 ∧
    s.threads.count (SerialPC.casDone false) = 0 ∧
    s.threads.count SerialPC.finished = 0) ∧
  (s.claimed = true → serialWinners s = 1)

/-- The invariant holds initially. -/
lemma serialInv_init (T : Nat) : SerialInv T (SerialSys.init T) := by
  refine ⟨by simp [SerialSys.init], fun _ => ⟨rfl, ?_, ?_, ?_, ?_⟩,
    fun hc => by simp [SerialSys.init] at hc⟩ <;>
    simp [SerialSys.init, Multiset.count_replicate]

/-- The invariant is preserved by every protocol step. -/
lemma serialInv_step {T : Nat} {s t : SerialSys}
    (hinv : SerialInv T s) (hstep : SerialStep s t) : SerialInv T t := by
  obtain ⟨hcard, hfalse, htrue⟩ := hinv
  cases hstep with
  | read h =>
      refine ⟨by dsimp only; rw [card_cons_erase h]; exact hcard, ?_, ?_⟩
      · intro hc
        dsimp only at hc ⊢
        obtain ⟨h1, h2, h3, h4, h5⟩ := hfalse hc
        rw [hc]
        refine ⟨h1, ?_, ?_, ?_, ?_⟩ <;>
          rw [count_cons_erase h] <;> simp [h2, h3, h4, h5]
      · intro hc
        dsimp only at hc ⊢
        have h1 := htrue hc
        unfold serialWinners at h1 ⊢
        dsimp only
        rw [hc, count_cons_erase h]
        simp
        omega
  | skipT h =>
      refine ⟨by dsimp only; rw [card_cons_erase h]; exact hcard, ?_, ?_⟩
      · intro hc
        dsimp only at hc
        exfalso
        have h2 := (hfalse hc).2.1
        have hmem := Multiset.count_pos.mpr h
        omega
      · intro hc
        dsimp only at hc ⊢
        have h1 := htrue hc
        unfold serialWinners at h1 ⊢
        dsimp only
        rw [count_cons_erase h]
        simp
        omega
  | cas h =>
      refine ⟨by dsimp only; rw [card_cons_erase h]; exact hcard, ?_, ?_⟩
      · intro hc
        exact absurd hc (by simp)
      · intro _
        unfold serialWinners
        dsimp only
        rw [count_cons_erase h]
        cases hcl : s.claimed with
        | false =>
            obtain ⟨h1, h2, h3, h4, h5⟩ := hfalse hcl
            simp [h1, h3]
        | true =>
            have h1 := htrue hcl
            unfold serialWinners at h1
            simp
            omega
  | exec h =>
      refine ⟨by dsimp only; rw [card_cons_erase h]; exact hcard, ?_, ?_⟩
      · intro hc
        dsimp only at hc
        exfalso
        have h3 := (hfalse hc).2.2.1
        have hmem := Multiset.count_pos.mpr h
        omega
      · intro hc
        dsimp only at hc ⊢
        have h1 := htrue hc
        unfold serialWinners at h1 ⊢
        dsimp only
        have hmem := Multiset.count_pos.mpr h
        rw [count_cons_erase h]
        simp
        omega
  | skipF h =>
      refine ⟨by dsimp only; rw [card_cons_erase h]; exact hcard, ?_, ?_⟩
      · intro hc
        dsimp only at hc
        exfalso
        have h4 := (hfalse hc).2.2.2.1
        have hmem := Multiset.count_pos.mpr h
        omega
      · intro hc
        dsimp only at hc ⊢
        have h1 := htrue hc
        unfold serialWinners at h1 ⊢
        dsimp only
        rw [count_cons_erase h]
        simp
        omega

/-- The invariant holds in every reachable state. -/
lemma serialInv_reachable {T : Nat} {s : SerialSys}
    (h : Relation.ReflTransGen SerialStep (SerialSys.init T) s) : SerialInv T s := by
  induction h with
  | refl => exact serialInv_init T
  | tail _ hbc ih => exact serialInv_step ih hbc

/-- C1: for every `SerialOnly` root-group guard scoped to one iterator
instance and every number `T ≥ 1` of threads concurrently invoking the
guard entry point, in every reachable state in which all calls have
returned, the guarded traversal function has executed exactly once:
exactly one caller wins the compare-and-swap on the `_claimed` flag and
runs the function, and every other call is a no-op. -/
theorem serial_guard_executes_exactly_once {T : Nat} {s : SerialSys}
    (hT : 1 ≤ T)
    (hreach : Relation.ReflTransGen SerialStep (SerialSys.init T) s)
    (hfin : s.allFinished) : s.execs = 1 := by
  obtain ⟨hcard, hfalse, htrue⟩ := serialInv_reachable hreach
  have hcasT : s.threads.count (SerialPC.casDone true) = 0 := by
    by_contra hne
    have hmem : SerialPC.casDone true ∈ s.threads :=
      Multiset.count_pos.mp (Nat.pos_of_ne_zero hne)
    exact absurd (hfin _ hmem) (by simp)
  cases hc : s.claimed with
  | false =>
      exfalso
      obtain ⟨-, -, -, -, h5⟩ := hfalse hc
      have hpos : 0 < Multiset.card s.threads := by omega
      obtain ⟨pc, hpc⟩ := Multiset.card_pos_iff_exists_mem.mp hpos
      have hfinpc := hfin pc hpc
      subst hfinpc
      have := Multiset.count_pos.mpr hpc
      omega
  | true =>
      have h1 := htrue hc
      unfold serialWinners at h1
      omega

/-- Witness for C1: a complete run with `T = 1` — the single thread reads
`_claimed == false`, wins the compare-and-swap and executes the guarded
function; the final state has one execution. -/
theorem serial_guard_executes_exactly_once_witness :
    1 ≤ 1 ∧
    Relation.ReflTransGen SerialStep (SerialSys.init 1)
      ⟨true, 1, {SerialPC.finished}⟩ ∧
    SerialSys.allFinished ⟨true, 1, {SerialPC.finished}⟩ ∧
    (⟨true, 1, {SerialPC.finished}⟩ : SerialSys).execs = 1 := by
  have hchain : Relation.ReflTransGen SerialStep (SerialSys.init 1)
      ⟨true, 1, {SerialPC.finished}⟩ :=
    Relation.ReflTransGen.head (SerialStep.read (SerialSys.init 1) (by decide))
      (Relation.ReflTransGen.head (SerialStep.cas _ (by decide))
        (Relation.ReflTransGen.head (SerialStep.exec _ (by decide))
          Relation.ReflTransGen.refl))
  exact ⟨Nat.le_refl 1, hchain, by decide,
    serial_guard_executes_exactly_once (Nat.le_refl 1) hchain (by decide)⟩
